import Mathlib

/-!
Verification of the Proxi-APP multi-device BLE/UWB connection subsystem.

The repository source under `src/Arduino/config.h` provides only the
configuration constants and the two enumerations (`DeviceState`,
`ConnectionQuality`).  The connection state machine, device registry,
heartbeat monitor, session manager and reconnection policy themselves are
not part of the provided sources, so those components are modelled from
the specification (section 2-4 of the design document); each such
definition's doc comment starts with `Modelled from the spec:`.
All constants and enumerations below are transcribed from
`src/Arduino/config.h`.
-/

/-- `MAX_CONNECTED_DEVICES` from `src/Arduino/config.h`. -/
def MAX_CONNECTED_DEVICES : Nat := 8

/-- `HEARTBEAT_INTERVAL` (ms) from `src/Arduino/config.h`. -/
def HEARTBEAT_INTERVAL : Nat := 5000

/-- `CONNECTION_TIMEOUT` (ms) from `src/Arduino/config.h`. -/
def CONNECTION_TIMEOUT : Nat := 30000

/-- `UWB_SESSION_TIMEOUT` (ms) from `src/Arduino/config.h`. -/
def UWB_SESSION_TIMEOUT : Nat := 60000

/-- `MAX_DEVICE_NAME_LENGTH` from `src/Arduino/config.h`. -/
def MAX_DEVICE_NAME_LENGTH : Nat := 32

/-- `BLE_DEVICE_NAME` from `src/Arduino/config.h` (the apostrophe is written
with a hex escape). -/
def BLE_DEVICE_NAME : String := "Gabriel\x27s Pilot"

/-- `BLE_ADVERTISING_INTERVAL` (ms) from `src/Arduino/config.h`. -/
def BLE_ADVERTISING_INTERVAL : Nat := 100

/-- `UWB_RANGING_INTERVAL` (ms) from `src/Arduino/config.h`. -/
def UWB_RANGING_INTERVAL : Nat := 100

/-- `UWB_MAX_RANGE` (meters) from `src/Arduino/config.h`. -/
def UWB_MAX_RANGE : ℚ := 100

/-- `UWB_MIN_RANGE` (meters, `0.1` in the source) from `src/Arduino/config.h`.
Written as the raw rational `1/10` so that it evaluates inside the kernel;
`UWB_MIN_RANGE_eq` below proves it equal to the literal `0.1`. -/
def UWB_MIN_RANGE : ℚ := ⟨1, 10, by decide, by decide⟩

/-- The raw-rational definition of `UWB_MIN_RANGE` equals the source
literal `0.1`. -/
theorem UWB_MIN_RANGE_eq : UWB_MIN_RANGE = 0.1 := by
  apply Rat.ext <;> norm_num [UWB_MIN_RANGE]

/-- `DEBUG_LEVEL` from `src/Arduino/config.h`. -/
def DEBUG_LEVEL : Nat := 2

/-- `LOOP_DELAY` (ms) from `src/Arduino/config.h`. -/
def LOOP_DELAY : Nat := 100

/-- `STATUS_UPDATE_INTERVAL` (ms) from `src/Arduino/config.h`. -/
def STATUS_UPDATE_INTERVAL : Nat := 5000

/-- `MAX_RECONNECT_ATTEMPTS` from `src/Arduino/config.h`. -/
def MAX_RECONNECT_ATTEMPTS : Nat := 3

/-- `RECONNECT_DELAY` (ms) from `src/Arduino/config.h`. -/
def RECONNECT_DELAY : Nat := 1000

/-- The `DeviceState` enumeration from `src/Arduino/config.h`. -/
inductive DeviceState where
  | DEVICE_DISCONNECTED
  | DEVICE_CONNECTED
  | DEVICE_SESSION_ACTIVE
  | DEVICE_RANGING
  | DEVICE_ERROR
deriving Repr, DecidableEq

/-- The `ConnectionQuality` enumeration from `src/Arduino/config.h`. -/
inductive ConnectionQuality where
  | QUALITY_POOR
  | QUALITY_FAIR
  | QUALITY_GOOD
  | QUALITY_EXCELLENT
deriving Repr, DecidableEq

open DeviceState ConnectionQuality

/-- Numeric value of each `DeviceState` constant as declared in the C enum. -/
def DeviceState.toNat : DeviceState → Nat
  | DEVICE_DISCONNECTED => 0
  | DEVICE_CONNECTED => 1
  | DEVICE_SESSION_ACTIVE => 2
  | DEVICE_RANGING => 3
  | DEVICE_ERROR => 4

/-- Numeric value of each `ConnectionQuality` constant as declared in the C enum. -/
def ConnectionQuality.toNat : ConnectionQuality → Nat
  | QUALITY_POOR => 0
  | QUALITY_FAIR => 1
  | QUALITY_GOOD => 2
  | QUALITY_EXCELLENT => 3

/-- Modelled from the spec: identity strings stored in a registry slot are
truncated to `MAX_DEVICE_NAME_LENGTH` characters (spec section 3, "identity:
a stable device address/name, truncated to `MAX_DEVICE_NAME_LENGTH` (32)
characters"); the truncation code itself is not in `src/`. -/
def truncateName (s : String) : String :=
  if s.length ≤ MAX_DEVICE_NAME_LENGTH then s
  else ((s.toList).take MAX_DEVICE_NAME_LENGTH).asString

/-- Modelled from the spec: a device slot of the DeviceRegistry (spec
section 3).  Holds the identity, the authoritative `DeviceState`, the
quality tier (valid only during an active session), the three timestamps
used by the timeout rules, the bounded reconnect counter, and the rolling
window of ranging samples accepted (forwarded to the QualityEstimator).
The slot structure itself is not in `src/`. -/
structure Slot where
  name : String
  state : DeviceState
  quality : Option ConnectionQuality
  lastHeartbeatAt : Nat
  connectedAt : Nat
  sessionStartedAt : Nat
  reconnectAttempts : Nat
  acceptedSamples : List ℚ
deriving Repr, DecidableEq

/-- Modelled from the spec: a freshly created slot starts in the initial
state `DISCONNECTED` (spec section 4.2) with a zero reconnect counter. -/
def initSlot (name : String) : Slot :=
  { name := truncateName name
    state := DEVICE_DISCONNECTED
    quality := none
    lastHeartbeatAt := 0
    connectedAt := 0
    sessionStartedAt := 0
    reconnectAttempts := 0
    acceptedSamples := [] }

/-- Modelled from the spec: the outcome type of
`ReconnectionPolicy.onDisconnect` (spec section 4.6), which is not in `src/`. -/
inductive PolicyDecision where
  | Retry (delay : Nat)
  | GiveUp
deriving Repr, DecidableEq

/-- Modelled from the spec: `ReconnectionPolicy.onDisconnect` (spec section
4.6), not in `src/`.  Returns `Retry RECONNECT_DELAY` while
`reconnectAttempts < MAX_RECONNECT_ATTEMPTS` and increments the counter on
each `Retry`; otherwise returns `GiveUp` and leaves the slot untouched. -/
def onDisconnect (s : Slot) : PolicyDecision × Slot :=
  if s.reconnectAttempts < MAX_RECONNECT_ATTEMPTS then
    (PolicyDecision.Retry RECONNECT_DELAY,
      { s with reconnectAttempts := s.reconnectAttempts + 1 })
  else
    (PolicyDecision.GiveUp, s)

/-- Modelled from the spec: the state machine's disconnect path (spec
sections 4.2 and 4.6), not in `src/`.  It consults the ReconnectionPolicy:
a `Retry` outcome moves the slot to `DISCONNECTED` (counter already
incremented by the policy), a `GiveUp` outcome moves it to the terminal
`ERROR` state.  Either way the session/quality data is torn down. -/
def applyDisconnect (s : Slot) : Slot :=
  match onDisconnect s with
  | (PolicyDecision.Retry _, s2) =>
      { s2 with state := DEVICE_DISCONNECTED, quality := none }
  | (PolicyDecision.GiveUp, s2) =>
      { s2 with state := DEVICE_ERROR, quality := none }

/-- Modelled from the spec: the per-device transition error (spec sections
4.2 and 7: unlisted transitions fail with `InvalidTransition`). -/
inductive TransErr where
  | InvalidTransition
deriving Repr, DecidableEq

/-- Modelled from the spec: the events delivered to the per-device
ConnectionStateMachine (spec sections 4.2, 4.3 and 6), not in `src/`.
`connect` is a successful BLE connection, `connectFailed` a failed
reconnect attempt (spec sections 4.2 "repeated failed reconnects" and 4.6),
`sessionStart` a session-start request, `rangingSample d` an incoming UWB
sample of distance `d` meters, `connTimeout`/`sessionTimeout` the timeout
events raised by the HeartbeatMonitor, `fault` an unrecoverable radio
fault, and `reset` the explicit external reset command. -/
inductive Event where
  | connect
  | connectFailed
  | sessionStart
  | rangingSample (d : ℚ)
  | connTimeout
  | sessionTimeout
  | fault
  | reset
deriving Repr, DecidableEq

/-- Modelled from the spec: the QualityEstimator's tier function (spec
section 4.5), not in `src/`.  The exact thresholds are explicitly left to
the implementer; this instance classifies by the size of the rolling
window of accepted samples. -/
def estimateQuality (window : List ℚ) : ConnectionQuality :=
  if window.length ≥ 8 then QUALITY_EXCELLENT
  else if window.length ≥ 4 then QUALITY_GOOD
  else if window.length ≥ 2 then QUALITY_FAIR
  else QUALITY_POOR

/-- Modelled from the spec: whether a ranging sample distance lies within
`[UWB_MIN_RANGE, UWB_MAX_RANGE]` (spec section 4.4). -/
def sampleInRange (d : ℚ) : Prop :=
  UWB_MIN_RANGE ≤ d ∧ d ≤ UWB_MAX_RANGE

instance (d : ℚ) : Decidable (sampleInRange d) := by
  unfold sampleInRange; infer_instance

/-- Modelled from the spec: one step of the per-device
ConnectionStateMachine (the transition table of spec section 4.2 together
with the SessionManager sample rules of section 4.4), not in `src/`.
Unlisted `(state, event)` pairs fail with `InvalidTransition` and leave
the slot unchanged (the caller keeps the old slot on error). -/
def stepSlot (now : Nat) (s : Slot) (e : Event) : Except TransErr Slot :=
  match e with
  | Event.connect =>
      match s.state with
      | DEVICE_DISCONNECTED =>
          Except.ok { s with state := DEVICE_CONNECTED, connectedAt := now,
                             lastHeartbeatAt := now, reconnectAttempts := 0 }
      | _ => Except.error TransErr.InvalidTransition
  | Event.connectFailed =>
      match s.state with
      | DEVICE_DISCONNECTED => Except.ok (applyDisconnect s)
      | _ => Except.error TransErr.InvalidTransition
  | Event.sessionStart =>
      match s.state with
      | DEVICE_CONNECTED =>
          Except.ok { s with state := DEVICE_SESSION_ACTIVE,
                             sessionStartedAt := now, lastHeartbeatAt := now }
      | _ => Except.error TransErr.InvalidTransition
  | Event.rangingSample d =>
      match s.state with
      | DEVICE_SESSION_ACTIVE =>
          if UWB_SESSION_TIMEOUT ≤ now - s.sessionStartedAt then
            Except.ok { s with state := DEVICE_DISCONNECTED, quality := none }
          else if sampleInRange d then
            Except.ok { s with state := DEVICE_RANGING, lastHeartbeatAt := now,
                               acceptedSamples := d :: s.acceptedSamples,
                               quality := some (estimateQuality (d :: s.acceptedSamples)) }
          else
            Except.ok { s with lastHeartbeatAt := now }
      | DEVICE_RANGING =>
          if UWB_SESSION_TIMEOUT ≤ now - s.sessionStartedAt then
            Except.ok { s with state := DEVICE_DISCONNECTED, quality := none }
          else if sampleInRange d then
            Except.ok { s with lastHeartbeatAt := now,
                               acceptedSamples := d :: s.acceptedSamples,
                               quality := some (estimateQuality (d :: s.acceptedSamples)) }
          else
            Except.ok { s with lastHeartbeatAt := now }
      | _ => Except.error TransErr.InvalidTransition
  | Event.connTimeout =>
      match s.state with
      | DEVICE_CONNECTED =>
          if CONNECTION_TIMEOUT ≤ now - s.lastHeartbeatAt then
            Except.ok (applyDisconnect s)
          else Except.error TransErr.InvalidTransition
      | _ => Except.error TransErr.InvalidTransition
  | Event.sessionTimeout =>
      match s.state with
      | DEVICE_SESSION_ACTIVE =>
          if HEARTBEAT_INTERVAL < now - s.lastHeartbeatAt ∨
             UWB_SESSION_TIMEOUT ≤ now - s.sessionStartedAt then
            Except.ok (applyDisconnect s)
          else Except.error TransErr.InvalidTransition
      | DEVICE_RANGING =>
          if HEARTBEAT_INTERVAL < now - s.lastHeartbeatAt ∨
             UWB_SESSION_TIMEOUT ≤ now - s.sessionStartedAt then
            Except.ok (applyDisconnect s)
          else Except.error TransErr.InvalidTransition
      | _ => Except.error TransErr.InvalidTransition
  | Event.fault =>
      Except.ok { s with state := DEVICE_ERROR, quality := none }
  | Event.reset =>
      match s.state with
      | DEVICE_ERROR =>
          Except.ok { s with state := DEVICE_DISCONNECTED,
                             reconnectAttempts := 0, quality := none }
      | _ => Except.error TransErr.InvalidTransition

/-- Modelled from the spec: the slot obtained after delivering an event,
keeping the old slot when the transition is invalid (spec section 7:
invalid transitions are non-fatal and leave the state unchanged). -/
def stepOk (now : Nat) (s : Slot) (e : Event) : Slot :=
  match stepSlot now s e with
  | Except.ok s2 => s2
  | Except.error _ => s

/-- Modelled from the spec: the slot reached from a fresh slot after a
timed sequence of events (spec sections 4.2 and 5: transitions are
serialized per device by the control loop). -/
def runSlot (name : String) (evs : List (Nat × Event)) : Slot :=
  evs.foldl (fun s p => stepOk p.1 s p.2) (initSlot name)

/-- Modelled from the spec: the HeartbeatMonitor's per-slot check (spec
section 4.3), not in `src/`.  It is strictly an event source: on a breach
of the relevant deadline it raises the corresponding timeout event for the
ConnectionStateMachine, otherwise nothing. -/
def monitorEvent (now : Nat) (s : Slot) : Option Event :=
  match s.state with
  | DEVICE_CONNECTED =>
      if CONNECTION_TIMEOUT ≤ now - s.lastHeartbeatAt then some Event.connTimeout
      else none
  | DEVICE_SESSION_ACTIVE =>
      if HEARTBEAT_INTERVAL < now - s.lastHeartbeatAt ∨
         UWB_SESSION_TIMEOUT ≤ now - s.sessionStartedAt then some Event.sessionTimeout
      else none
  | DEVICE_RANGING =>
      if HEARTBEAT_INTERVAL < now - s.lastHeartbeatAt ∨
         UWB_SESSION_TIMEOUT ≤ now - s.sessionStartedAt then some Event.sessionTimeout
      else none
  | _ => none

/-- Modelled from the spec: the registry admission error (spec section 4.1:
`add` fails with `CapacityExceeded` when 8 slots are occupied). -/
inductive RegErr where
  | CapacityExceeded
deriving Repr, DecidableEq

/-- Modelled from the spec: the DeviceRegistry (spec sections 3 and 4.1),
not in `src/`: a bounded table of at most `MAX_CONNECTED_DEVICES` slots
kept in insertion order. -/
structure Registry where
  slots : List Slot
deriving Repr, DecidableEq

/-- Modelled from the spec: the empty registry. -/
def emptyRegistry : Registry := { slots := [] }

/-- Modelled from the spec: `DeviceRegistry.add` (spec section 4.1), not in
`src/`.  Fails with `CapacityExceeded` when `MAX_CONNECTED_DEVICES` slots
are occupied, otherwise appends a fresh slot (insertion order). -/
def Registry.add (r : Registry) (name : String) : Except RegErr Registry :=
  if MAX_CONNECTED_DEVICES ≤ r.slots.length then
    Except.error RegErr.CapacityExceeded
  else
    Except.ok { slots := r.slots ++ [initSlot name] }

/-- Modelled from the spec: `DeviceRegistry.remove` (spec section 4.1), not
in `src/`.  Idempotent; removing an absent identity is a no-op. -/
def Registry.remove (r : Registry) (name : String) : Registry :=
  { slots := r.slots.filter (fun s => s.name ≠ name) }

/-- Modelled from the spec: the registry-level events of the control loop
(spec sections 2 and 6): a discovery (admission attempt), an explicit
removal, a per-device machine event, or a heartbeat-monitor tick. -/
inductive RegEvent where
  | discovered (name : String)
  | removed (name : String)
  | deviceEvent (name : String) (now : Nat) (e : Event)
  | monitorTick (now : Nat)
deriving Repr, DecidableEq

/-- Modelled from the spec: one control-loop action on the registry (spec
sections 5 and 7).  Per-device faults and admission failures are contained:
on any error the registry is left unchanged (no fault halts the loop). -/
def applyRegEvent (r : Registry) (ev : RegEvent) : Registry :=
  match ev with
  | RegEvent.discovered n =>
      match r.add n with
      | Except.ok r2 => r2
      | Except.error _ => r
  | RegEvent.removed n => r.remove n
  | RegEvent.deviceEvent n now e =>
      { slots := r.slots.map (fun s =>
          if s.name = truncateName n then stepOk now s e else s) }
  | RegEvent.monitorTick now =>
      { slots := r.slots.map (fun s =>
          match monitorEvent now s with
          | some e => stepOk now s e
          | none => s) }

/-- Modelled from the spec: the registry reached from empty after a
sequence of control-loop events. -/
def runRegistry (evs : List RegEvent) : Registry :=
  evs.foldl applyRegEvent emptyRegistry

/-- Modelled from the spec: the `(state, event)` pairs listed in the
transition table of spec section 4.2 (with their guard conditions), plus
the failed-reconnect consultation of the ReconnectionPolicy from sections
4.2 ("repeated failed reconnects") and 4.6, which applies to a
`DISCONNECTED` slot. -/
def listedPair (now : Nat) (s : Slot) (e : Event) : Prop :=
  match e with
  | Event.connect => s.state = DEVICE_DISCONNECTED
  | Event.connectFailed => s.state = DEVICE_DISCONNECTED
  | Event.sessionStart => s.state = DEVICE_CONNECTED
  | Event.rangingSample _ =>
      s.state = DEVICE_SESSION_ACTIVE ∨ s.state = DEVICE_RANGING
  | Event.connTimeout =>
      s.state = DEVICE_CONNECTED ∧ CONNECTION_TIMEOUT ≤ now - s.lastHeartbeatAt
  | Event.sessionTimeout =>
      (s.state = DEVICE_SESSION_ACTIVE ∨ s.state = DEVICE_RANGING) ∧
      (HEARTBEAT_INTERVAL < now - s.lastHeartbeatAt ∨
       UWB_SESSION_TIMEOUT ≤ now - s.sessionStartedAt)
  | Event.fault => True
  | Event.reset => s.state = DEVICE_ERROR

instance (now : Nat) (s : Slot) (e : Event) : Decidable (listedPair now s e) := by
  unfold listedPair
  cases e <;> infer_instance

/-! ## Supporting lemmas -/

/-- Under the retry budget, the disconnect path consults the policy, gets
`Retry`, increments the counter and lands in `DISCONNECTED`. -/
theorem applyDisconnect_of_budget (s : Slot)
    (h : s.reconnectAttempts < MAX_RECONNECT_ATTEMPTS) :
    applyDisconnect s =
      { s with state := DEVICE_DISCONNECTED, quality := none,
               reconnectAttempts := s.reconnectAttempts + 1 } := by
  simp [applyDisconnect, onDisconnect, h]

/-- With the retry budget exhausted, the disconnect path gets `GiveUp` and
lands in the terminal `ERROR` state with the counter untouched. -/
theorem applyDisconnect_of_exhausted (s : Slot)
    (h : ¬ s.reconnectAttempts < MAX_RECONNECT_ATTEMPTS) :
    applyDisconnect s = { s with state := DEVICE_ERROR, quality := none } := by
  simp [applyDisconnect, onDisconnect, h]

/-- The disconnect path never pushes the counter past the maximum. -/
theorem applyDisconnect_attempts_le (s : Slot)
    (h : s.reconnectAttempts ≤ MAX_RECONNECT_ATTEMPTS) :
    (applyDisconnect s).reconnectAttempts ≤ MAX_RECONNECT_ATTEMPTS := by
  by_cases hb : s.reconnectAttempts < MAX_RECONNECT_ATTEMPTS
  · rw [applyDisconnect_of_budget s hb]; exact hb
  · rw [applyDisconnect_of_exhausted s hb]; exact h

/-- The disconnect path never decreases the counter. -/
theorem applyDisconnect_attempts_mono (s : Slot) :
    s.reconnectAttempts ≤ (applyDisconnect s).reconnectAttempts := by
  by_cases hb : s.reconnectAttempts < MAX_RECONNECT_ATTEMPTS
  · rw [applyDisconnect_of_budget s hb]; exact Nat.le_succ _
  · rw [applyDisconnect_of_exhausted s hb]

/-! ## Claim theorems: configuration constants (C9, C10) -/

/-- C9: the timing constants are strictly ordered,
`LOOP_DELAY < HEARTBEAT_INTERVAL < CONNECTION_TIMEOUT < UWB_SESSION_TIMEOUT`,
and the two timeouts are exact integer multiples of the heartbeat interval
(6x and 12x respectively), so every timeout deadline falls on a
heartbeat-monitor tick and the monitor fires several times before either
timeout can be breached. -/
theorem c9_timing_constants_ordered :
    LOOP_DELAY < HEARTBEAT_INTERVAL ∧
    HEARTBEAT_INTERVAL < CONNECTION_TIMEOUT ∧
    CONNECTION_TIMEOUT < UWB_SESSION_TIMEOUT ∧
    CONNECTION_TIMEOUT = 6 * HEARTBEAT_INTERVAL ∧
    UWB_SESSION_TIMEOUT = 12 * HEARTBEAT_INTERVAL ∧
    CONNECTION_TIMEOUT % HEARTBEAT_INTERVAL = 0 ∧
    UWB_SESSION_TIMEOUT % HEARTBEAT_INTERVAL = 0 := by
  decide

/-- C10: the advertising name `BLE_DEVICE_NAME` is 15 characters long,
within `MAX_DEVICE_NAME_LENGTH` (32), so storing the device's own identity
in a registry slot never triggers the truncation rule. -/
theorem c10_device_name_fits :
    BLE_DEVICE_NAME.length = 15 ∧
    BLE_DEVICE_NAME.length ≤ MAX_DEVICE_NAME_LENGTH ∧
    truncateName BLE_DEVICE_NAME = BLE_DEVICE_NAME := by
  decide

/-- One control-loop action never pushes the registry past its capacity. -/
theorem applyRegEvent_length_le (r : Registry) (ev : RegEvent)
    (h : r.slots.length ≤ MAX_CONNECTED_DEVICES) :
    (applyRegEvent r ev).slots.length ≤ MAX_CONNECTED_DEVICES := by
  cases ev with
  | discovered n =>
      by_cases hfull : MAX_CONNECTED_DEVICES ≤ r.slots.length
      · simp [applyRegEvent, Registry.add, hfull, h]
      · simp [applyRegEvent, Registry.add, hfull]
        omega
  | removed n =>
      simp only [applyRegEvent, Registry.remove]
      exact le_trans (List.length_filter_le _ _) h
  | deviceEvent n now e => simpa [applyRegEvent] using h
  | monitorTick now => simpa [applyRegEvent] using h

/-- Registry capacity is an inductive invariant of whole event sequences. -/
theorem runRegistry_aux_length_le (evs : List RegEvent) (r : Registry)
    (h : r.slots.length ≤ MAX_CONNECTED_DEVICES) :
    (evs.foldl applyRegEvent r).slots.length ≤ MAX_CONNECTED_DEVICES := by
  induction evs generalizing r with
  | nil => simpa using h
  | cons ev rest ih =>
      simp only [List.foldl_cons]
      exact ih _ (applyRegEvent_length_le r ev h)

/-! ## Claim C1: registry capacity -/

/-- C1: over every sequence of connect/disconnect/discovery events the
DeviceRegistry never holds more than `MAX_CONNECTED_DEVICES` (8) occupied
slots, and when 8 slots are occupied an `add` for a 9th device fails with
`CapacityExceeded`, evicts nothing, and leaves the registry (hence its
size of 8) unchanged. -/
theorem c1_registry_capacity :
    (∀ evs : List RegEvent,
       (runRegistry evs).slots.length ≤ MAX_CONNECTED_DEVICES) ∧
    (∀ (r : Registry) (name : String),
       r.slots.length = MAX_CONNECTED_DEVICES →
       r.add name = Except.error RegErr.CapacityExceeded ∧
       applyRegEvent r (RegEvent.discovered name) = r) := by
  constructor
  · intro evs
    exact runRegistry_aux_length_le evs emptyRegistry (by simp [emptyRegistry])
  · intro r name h
    have hfull : MAX_CONNECTED_DEVICES ≤ r.slots.length := le_of_eq h.symm
    constructor
    · simp [Registry.add, hfull]
    · simp [applyRegEvent, Registry.add, hfull]

/-- Eight concrete discovery events. -/
def c1Discoveries : List RegEvent :=
  [RegEvent.discovered "A", RegEvent.discovered "B", RegEvent.discovered "C",
   RegEvent.discovered "D", RegEvent.discovered "E", RegEvent.discovered "F",
   RegEvent.discovered "G", RegEvent.discovered "H"]

/-- A registry concretely filled to capacity with eight devices. -/
def c1FullRegistry : Registry := runRegistry c1Discoveries

/-- C1 witness: after eight discoveries the registry holds 8 ≤ 8 slots, and
a concrete 9th `add` fails with `CapacityExceeded` leaving it unchanged. -/
theorem c1_registry_capacity_witness :
    (runRegistry c1Discoveries).slots.length ≤ MAX_CONNECTED_DEVICES ∧
    c1FullRegistry.add "I" = Except.error RegErr.CapacityExceeded ∧
    applyRegEvent c1FullRegistry (RegEvent.discovered "I") = c1FullRegistry :=
  ⟨c1_registry_capacity.1 c1Discoveries,
   (c1_registry_capacity.2 c1FullRegistry "I" (by decide)).1,
   (c1_registry_capacity.2 c1FullRegistry "I" (by decide)).2⟩

/-! ## Claim C2: reconnection policy -/

/-- C2: for every slot, `ReconnectionPolicy.onDisconnect` returns
`Retry RECONNECT_DELAY` (1000 ms) and increments `reconnectAttempts`
whenever `reconnectAttempts < MAX_RECONNECT_ATTEMPTS` (3); otherwise it
returns `GiveUp`, upon which the state machine's disconnect path moves the
device to `ERROR` (shown both for the disconnect path itself and for a
failed reconnect delivered to an exhausted `DISCONNECTED` slot). -/
theorem c2_reconnection_policy :
    (∀ s : Slot, s.reconnectAttempts < MAX_RECONNECT_ATTEMPTS →
       onDisconnect s = (PolicyDecision.Retry RECONNECT_DELAY,
         { s with reconnectAttempts := s.reconnectAttempts + 1 })) ∧
    (∀ s : Slot, MAX_RECONNECT_ATTEMPTS ≤ s.reconnectAttempts →
       onDisconnect s = (PolicyDecision.GiveUp, s) ∧
       (applyDisconnect s).state = DEVICE_ERROR) ∧
    (∀ (s : Slot) (now : Nat),
       s.state = DEVICE_DISCONNECTED →
       MAX_RECONNECT_ATTEMPTS ≤ s.reconnectAttempts →
       stepSlot now s Event.connectFailed =
         Except.ok { s with state := DEVICE_ERROR, quality := none }) := by
  refine ⟨?_, ?_, ?_⟩
  · intro s h
    simp [onDisconnect, h]
  · intro s h
    have h2 : ¬ s.reconnectAttempts < MAX_RECONNECT_ATTEMPTS := by omega
    constructor
    · simp [onDisconnect, h2]
    · rw [applyDisconnect_of_exhausted s h2]
  · intro s now hst h
    have h2 : ¬ s.reconnectAttempts < MAX_RECONNECT_ATTEMPTS := by omega
    rcases s with ⟨nm, st, q, lh, ca, ss, ra, acc⟩
    subst hst
    simp only [stepSlot]
    rw [applyDisconnect_of_exhausted _ h2]

/-- A concrete slot in `DISCONNECTED` with `n` reconnect attempts. -/
def discSlot (n : Nat) : Slot :=
  { initSlot "D" with reconnectAttempts := n }

/-- C2 witness: with 0 attempts the policy retries after 1000 ms and bumps
the counter to 1; with 3 attempts it gives up and a failed reconnect moves
the slot to `ERROR`. -/
theorem c2_reconnection_policy_witness :
    onDisconnect (discSlot 0) =
      (PolicyDecision.Retry RECONNECT_DELAY, { discSlot 0 with reconnectAttempts := 1 }) ∧
    onDisconnect (discSlot 3) = (PolicyDecision.GiveUp, discSlot 3) ∧
    stepSlot 31001 (discSlot 3) Event.connectFailed =
      Except.ok { discSlot 3 with state := DEVICE_ERROR, quality := none } :=
  ⟨c2_reconnection_policy.1 (discSlot 0) (by decide),
   (c2_reconnection_policy.2.1 (discSlot 3) (by decide)).1,
   c2_reconnection_policy.2.2 (discSlot 3) 31001 (by decide) (by decide)⟩

/-! ## Claim C3: ERROR is terminal except for explicit reset -/

/-- C3: a device in `ERROR` stays in `ERROR` under every event other than
the explicit reset command (invalid events leave the slot untouched and a
fault keeps it in `ERROR`); the explicit reset command moves it to
`DISCONNECTED` clearing `reconnectAttempts`, and reset applies in no other
state. -/
theorem c3_error_terminal :
    (∀ (s : Slot) (now : Nat) (e : Event),
       s.state = DEVICE_ERROR → e ≠ Event.reset →
       (stepOk now s e).state = DEVICE_ERROR) ∧
    (∀ (s : Slot) (now : Nat),
       s.state = DEVICE_ERROR →
       stepSlot now s Event.reset =
         Except.ok { s with state := DEVICE_DISCONNECTED,
                            reconnectAttempts := 0, quality := none }) ∧
    (∀ (s : Slot) (now : Nat),
       s.state ≠ DEVICE_ERROR →
       stepSlot now s Event.reset = Except.error TransErr.InvalidTransition) := by
  refine ⟨?_, ?_, ?_⟩
  · intro s now e hst hne
    rcases s with ⟨nm, st, q, lh, ca, ss, ra, acc⟩
    simp only at hst
    subst hst
    cases e <;> simp [stepOk, stepSlot] at hne ⊢
  · intro s now hst
    rcases s with ⟨nm, st, q, lh, ca, ss, ra, acc⟩
    simp only at hst
    subst hst
    simp [stepSlot]
  · intro s now hst
    rcases s with ⟨nm, st, q, lh, ca, ss, ra, acc⟩
    simp only at hst
    cases st <;> simp [stepSlot] at hst ⊢

/-- A concrete slot sitting in the terminal `ERROR` state. -/
def errSlot : Slot :=
  { initSlot "E" with state := DEVICE_ERROR, reconnectAttempts := 3 }

/-- C3 witness: a concrete `ERROR` slot stays in `ERROR` under a connect
event and under a fault, and the explicit reset moves it to `DISCONNECTED`
with a cleared counter, while reset is invalid on a `DISCONNECTED` slot. -/
theorem c3_error_terminal_witness :
    (stepOk 40000 errSlot Event.connect).state = DEVICE_ERROR ∧
    (stepOk 40000 errSlot Event.fault).state = DEVICE_ERROR ∧
    stepSlot 40000 errSlot Event.reset =
      Except.ok { errSlot with state := DEVICE_DISCONNECTED,
                               reconnectAttempts := 0, quality := none } ∧
    stepSlot 40000 (initSlot "D") Event.reset =
      Except.error TransErr.InvalidTransition :=
  ⟨c3_error_terminal.1 errSlot 40000 Event.connect (by decide) (by decide),
   c3_error_terminal.1 errSlot 40000 Event.fault (by decide) (by decide),
   c3_error_terminal.2.1 errSlot 40000 (by decide),
   c3_error_terminal.2.2 (initSlot "D") 40000 (by decide)⟩

/-! ## Claim C4: connection timeout fires exactly once per breach -/

/-- C4: a `CONNECTED` device with no heartbeat for `CONNECTION_TIMEOUT`
(30000 ms) transitions to `DISCONNECTED` with `reconnectAttempts`
incremented by exactly one, and afterwards the HeartbeatMonitor raises no
further event for that slot at any later tick, so the breach fires exactly
once rather than once per loop tick. -/
theorem c4_connection_timeout :
    ∀ (s : Slot) (now : Nat),
      s.state = DEVICE_CONNECTED →
      CONNECTION_TIMEOUT ≤ now - s.lastHeartbeatAt →
      s.reconnectAttempts < MAX_RECONNECT_ATTEMPTS →
      stepSlot now s Event.connTimeout = Except.ok (applyDisconnect s) ∧
      (applyDisconnect s).state = DEVICE_DISCONNECTED ∧
      (applyDisconnect s).reconnectAttempts = s.reconnectAttempts + 1 ∧
      ∀ now2 : Nat, monitorEvent now2 (applyDisconnect s) = none := by
  intro s now hst hto hb
  have hd := applyDisconnect_of_budget s hb
  refine ⟨?_, ?_, ?_, ?_⟩
  · rcases s with ⟨nm, st, q, lh, ca, ss, ra, acc⟩
    simp only at hst
    subst hst
    simp only at hto
    simp [stepSlot, hto]
  · rw [hd]
  · rw [hd]
  · intro now2
    rw [hd]
    simp [monitorEvent]

/-- A concrete slot that connected at t = 0 and never heard a heartbeat. -/
def c4ConnectedSlot : Slot := stepOk 0 (initSlot "D") Event.connect

/-- C4 witness: the device that connected at t = 0 with no heartbeat is, on
the timeout delivered at t = 30001 ms, `DISCONNECTED` with
`reconnectAttempts = 1`, and the monitor stays silent for it afterwards. -/
theorem c4_connection_timeout_witness :
    stepSlot 30001 c4ConnectedSlot Event.connTimeout =
      Except.ok (applyDisconnect c4ConnectedSlot) ∧
    (applyDisconnect c4ConnectedSlot).state = DEVICE_DISCONNECTED ∧
    (applyDisconnect c4ConnectedSlot).reconnectAttempts = 1 ∧
    monitorEvent 35000 (applyDisconnect c4ConnectedSlot) = none :=
  ⟨(c4_connection_timeout c4ConnectedSlot 30001 (by decide) (by decide) (by decide)).1,
   (c4_connection_timeout c4ConnectedSlot 30001 (by decide) (by decide) (by decide)).2.1,
   (c4_connection_timeout c4ConnectedSlot 30001 (by decide) (by decide) (by decide)).2.2.1,
   (c4_connection_timeout c4ConnectedSlot 30001 (by decide) (by decide) (by decide)).2.2.2 35000⟩

/-! ## Claim C5: session timeout checked on every sample -/

/-- C5: for a device with an active UWB session (`SESSION_ACTIVE` or
`RANGING`), the session age is checked against `UWB_SESSION_TIMEOUT` on
every incoming ranging sample, and once the session has been active for at
least `UWB_SESSION_TIMEOUT` (60000 ms) the session is force-stopped and
the device transitions to `DISCONNECTED` — for every sample distance `d`,
valid or not. -/
theorem c5_session_timeout_on_sample :
    ∀ (s : Slot) (now : Nat) (d : ℚ),
      s.state = DEVICE_SESSION_ACTIVE ∨ s.state = DEVICE_RANGING →
      UWB_SESSION_TIMEOUT ≤ now - s.sessionStartedAt →
      stepSlot now s (Event.rangingSample d) =
        Except.ok { s with state := DEVICE_DISCONNECTED, quality := none } := by
  intro s now d hst hage
  rcases s with ⟨nm, st, q, lh, ca, ss, ra, acc⟩
  simp only at hst hage
  rcases hst with hst | hst <;> subst hst <;> simp [stepSlot, hage]

/-- A concrete slot whose UWB session started at t = 0 and is in `RANGING`. -/
def c5RangingSlot : Slot :=
  { initSlot "R" with state := DEVICE_RANGING, lastHeartbeatAt := 59900,
                      sessionStartedAt := 0, quality := some QUALITY_GOOD }

/-- C5 witness: a valid 5 m sample arriving at t = 60000 into a session
started at t = 0 force-stops it: the slot lands in `DISCONNECTED`. -/
theorem c5_session_timeout_on_sample_witness :
    stepSlot 60000 c5RangingSlot (Event.rangingSample 5) =
      Except.ok { c5RangingSlot with state := DEVICE_DISCONNECTED, quality := none } :=
  c5_session_timeout_on_sample c5RangingSlot 60000 5 (by decide) (by decide)

/-! ## Claim C6: range filtering of ranging samples -/

/-- A concrete slot whose UWB session (started at t = 0) has already
reached `UWB_SESSION_TIMEOUT` by t = 60000. -/
def c6ExpiredSlot : Slot :=
  { initSlot "X" with state := DEVICE_SESSION_ACTIVE, sessionStartedAt := 0 }

/-- C6 counterexample: a sample of 5 m lies inside
`[UWB_MIN_RANGE, UWB_MAX_RANGE]`, yet delivered at t = 60000 to a session
started at t = 0 it is not forwarded to the QualityEstimator (the accepted
window stays empty and the liveness clock is not reset): the session-age
check of spec section 4.4 precedes the validity check, so an in-range
sample is not always forwarded. -/
theorem c6_range_filtering_counterexample :
    sampleInRange 5 ∧
    (stepOk 60000 c6ExpiredSlot (Event.rangingSample 5)).acceptedSamples = [] ∧
    (stepOk 60000 c6ExpiredSlot (Event.rangingSample 5)).lastHeartbeatAt = 0 ∧
    (stepOk 60000 c6ExpiredSlot (Event.rangingSample 5)).state = DEVICE_DISCONNECTED := by
  decide

/-- C6 (amended): for every ranging sample delivered while the session is
live (session age `< UWB_SESSION_TIMEOUT`), a sample with distance below
`UWB_MIN_RANGE` (0.1 m) or above `UWB_MAX_RANGE` (100 m) is discarded and
never forwarded to the QualityEstimator — the slot is unchanged except
that the sample still counts as a heartbeat-equivalent liveness signal
resetting the timeout clock — while a sample with distance inside the
range is forwarded (appended to the accepted window). -/
theorem c6_range_filtering :
    ∀ (s : Slot) (now : Nat) (d : ℚ),
      s.state = DEVICE_SESSION_ACTIVE ∨ s.state = DEVICE_RANGING →
      now - s.sessionStartedAt < UWB_SESSION_TIMEOUT →
      ((d < UWB_MIN_RANGE ∨ UWB_MAX_RANGE < d →
         stepSlot now s (Event.rangingSample d) =
           Except.ok { s with lastHeartbeatAt := now }) ∧
       (sampleInRange d →
         (stepOk now s (Event.rangingSample d)).acceptedSamples =
           d :: s.acceptedSamples ∧
         (stepOk now s (Event.rangingSample d)).lastHeartbeatAt = now)) := by
  intro s now d hst hlive
  have hage : ¬ UWB_SESSION_TIMEOUT ≤ now - s.sessionStartedAt := by omega
  constructor
  · intro hout
    have hnot : ¬ sampleInRange d := by
      simp only [sampleInRange, not_and_or, not_le]
      rcases hout with h | h
      · exact Or.inl h
      · exact Or.inr h
    rcases s with ⟨nm, st, q, lh, ca, ss, ra, acc⟩
    simp only at hst hage
    rcases hst with hst | hst <;> subst hst <;> simp [stepSlot, hage, hnot]
  · intro hin
    rcases s with ⟨nm, st, q, lh, ca, ss, ra, acc⟩
    simp only at hst hage
    rcases hst with hst | hst <;> subst hst <;>
      simp [stepOk, stepSlot, hage, hin]

/-- A concrete slot in `RANGING` with a live session. -/
def c6LiveSlot : Slot :=
  { initSlot "L" with state := DEVICE_RANGING, sessionStartedAt := 1000,
                      lastHeartbeatAt := 1000 }

/-- A concrete out-of-range sample distance: 0.05 m, written as the raw
rational `1/20` so that it evaluates inside the kernel. -/
def c6OutSample : ℚ := ⟨1, 20, by decide, by decide⟩

/-- C6 witness: at t = 2000 on a live session, a 0.05 m sample is discarded
but resets the liveness clock, and a 5 m sample is appended to the
accepted window. -/
theorem c6_range_filtering_witness :
    stepSlot 2000 c6LiveSlot (Event.rangingSample c6OutSample) =
      Except.ok { c6LiveSlot with lastHeartbeatAt := 2000 } ∧
    (stepOk 2000 c6LiveSlot (Event.rangingSample 5)).acceptedSamples = [5] ∧
    (stepOk 2000 c6LiveSlot (Event.rangingSample 5)).lastHeartbeatAt = 2000 :=
  ⟨(c6_range_filtering c6LiveSlot 2000 c6OutSample (by decide) (by decide)).1 (by decide),
   ((c6_range_filtering c6LiveSlot 2000 5 (by decide) (by decide)).2 (by decide)).1,
   ((c6_range_filtering c6LiveSlot 2000 5 (by decide) (by decide)).2 (by decide)).2⟩

/-! ## Claim C7: unlisted transitions are rejected without mutation -/

/-- C7: for every device state and event, if the `(state, event)` pair is
not among the listed transitions (the table of spec section 4.2 with its
guard conditions, plus the failed-reconnect policy consultation), the
state machine returns `InvalidTransition` and the slot — its state and all
other fields — is left unchanged, so the error is local and non-fatal. -/
theorem c7_invalid_transitions :
    ∀ (now : Nat) (s : Slot) (e : Event),
      ¬ listedPair now s e →
      stepSlot now s e = Except.error TransErr.InvalidTransition ∧
      stepOk now s e = s := by
  intro now s e h
  have key : stepSlot now s e = Except.error TransErr.InvalidTransition := by
    rcases s with ⟨nm, st, q, lh, ca, ss, ra, acc⟩
    cases e <;> cases st <;>
      simp only [listedPair] at h <;>
      simp only [stepSlot] <;>
      first
        | rfl
        | simp_all
  exact ⟨key, by simp [stepOk, key]⟩

/-- C7 witness: a session-start request on a concrete `DISCONNECTED` slot
is unlisted: it fails with `InvalidTransition` and the slot is unchanged. -/
theorem c7_invalid_transitions_witness :
    stepSlot 500 (initSlot "D") Event.sessionStart =
      Except.error TransErr.InvalidTransition ∧
    stepOk 500 (initSlot "D") Event.sessionStart = initSlot "D" :=
  c7_invalid_transitions 500 (initSlot "D") Event.sessionStart (by decide)

/-! ## Claim C8: the reconnect counter is bounded and monotone -/

/-- One step never pushes the reconnect counter past its maximum. -/
theorem stepOk_attempts_le (now : Nat) (s : Slot) (e : Event)
    (h : s.reconnectAttempts ≤ MAX_RECONNECT_ATTEMPTS) :
    (stepOk now s e).reconnectAttempts ≤ MAX_RECONNECT_ATTEMPTS := by
  have hd := applyDisconnect_attempts_le s h
  rcases s with ⟨nm, st, q, lh, ca, ss, ra, acc⟩
  cases e <;> cases st <;>
    simp only [stepOk, stepSlot] <;>
    (try split_ifs) <;>
    simp_all

/-- Outside of `connect` and `reset`, one step never decreases the
reconnect counter. -/
theorem stepOk_attempts_mono (now : Nat) (s : Slot) (e : Event)
    (h1 : e ≠ Event.connect) (h2 : e ≠ Event.reset) :
    s.reconnectAttempts ≤ (stepOk now s e).reconnectAttempts := by
  have hd := applyDisconnect_attempts_mono s
  rcases s with ⟨nm, st, q, lh, ca, ss, ra, acc⟩
  cases e <;> cases st <;>
    simp only [stepOk, stepSlot] <;>
    (try split_ifs) <;>
    simp_all

/-- The reconnect-counter bound holds along every event sequence from a
fresh slot. -/
theorem runSlot_attempts_le (name : String) (evs : List (Nat × Event)) :
    (runSlot name evs).reconnectAttempts ≤ MAX_RECONNECT_ATTEMPTS := by
  have main : ∀ (l : List (Nat × Event)) (s : Slot),
      s.reconnectAttempts ≤ MAX_RECONNECT_ATTEMPTS →
      (l.foldl (fun s p => stepOk p.1 s p.2) s).reconnectAttempts ≤
        MAX_RECONNECT_ATTEMPTS := by
    intro l
    induction l with
    | nil => intro s h; simpa using h
    | cons p rest ih =>
        intro s h
        simp only [List.foldl_cons]
        exact ih _ (stepOk_attempts_le p.1 s p.2 h)
  exact main evs (initSlot name) (by simp [initSlot])

/-- C8: `reconnectAttempts` never exceeds `MAX_RECONNECT_ATTEMPTS` (3) in
any state reachable from a fresh slot; it is monotonically non-decreasing
under every event other than `connect` and `reset` (so within a disconnect
streak); and whenever an accepted event decreases it, that event was a
successful `connect` or the explicit reset, and the counter is then
exactly 0 — in particular every successful `connect` resets it to 0. -/
theorem c8_reconnect_counter :
    (∀ (name : String) (evs : List (Nat × Event)),
       (runSlot name evs).reconnectAttempts ≤ MAX_RECONNECT_ATTEMPTS) ∧
    (∀ (now : Nat) (s : Slot) (e : Event),
       e ≠ Event.connect → e ≠ Event.reset →
       s.reconnectAttempts ≤ (stepOk now s e).reconnectAttempts) ∧
    (∀ (now : Nat) (s : Slot) (e : Event) (s2 : Slot),
       stepSlot now s e = Except.ok s2 →
       s2.reconnectAttempts < s.reconnectAttempts →
       (e = Event.connect ∨ e = Event.reset) ∧ s2.reconnectAttempts = 0) ∧
    (∀ (now : Nat) (s : Slot) (s2 : Slot),
       stepSlot now s Event.connect = Except.ok s2 →
       s2.reconnectAttempts = 0) := by
  have hconn : ∀ (now : Nat) (s : Slot) (s2 : Slot),
      stepSlot now s Event.connect = Except.ok s2 →
      s2.reconnectAttempts = 0 := by
    intro now s s2 hok
    rcases s with ⟨nm, st, q, lh, ca, ss, ra, acc⟩
    cases st <;> simp only [stepSlot] at hok <;> simp at hok <;>
      (subst hok; rfl)
  have hreset : ∀ (now : Nat) (s : Slot) (s2 : Slot),
      stepSlot now s Event.reset = Except.ok s2 →
      s2.reconnectAttempts = 0 := by
    intro now s s2 hok
    rcases s with ⟨nm, st, q, lh, ca, ss, ra, acc⟩
    cases st <;> simp only [stepSlot] at hok <;> simp at hok <;>
      (subst hok; rfl)
  refine ⟨runSlot_attempts_le, stepOk_attempts_mono, ?_, hconn⟩
  intro now s e s2 hok hlt
  have hs2 : stepOk now s e = s2 := by simp [stepOk, hok]
  by_cases hc : e = Event.connect
  · subst hc
    exact ⟨Or.inl rfl, hconn now s s2 hok⟩
  · by_cases hr : e = Event.reset
    · subst hr
      exact ⟨Or.inr rfl, hreset now s s2 hok⟩
    · exfalso
      have hmono := stepOk_attempts_mono now s e hc hr
      rw [hs2] at hmono
      omega

/-- The slot obtained by a successful connect on a slot carrying two prior
reconnect attempts. -/
def c8S2 : Slot := stepOk 50 (discSlot 2) Event.connect

/-- C8 witness: along the concrete trace connect, timeout, and three
failed reconnects the counter stays at most 3; a failed reconnect on a
slot with one attempt does not decrease the counter; and a concrete
successful connect on a slot with two attempts resets the counter to 0. -/
theorem c8_reconnect_counter_witness :
    (runSlot "W" [(0, Event.connect), (30001, Event.connTimeout),
                  (31001, Event.connectFailed), (32001, Event.connectFailed),
                  (33001, Event.connectFailed)]).reconnectAttempts ≤
      MAX_RECONNECT_ATTEMPTS ∧
    (discSlot 1).reconnectAttempts ≤
      (stepOk 100 (discSlot 1) Event.connectFailed).reconnectAttempts ∧
    ((Event.connect = Event.connect ∨ Event.connect = Event.reset) ∧
      c8S2.reconnectAttempts = 0) ∧
    c8S2.reconnectAttempts = 0 :=
  ⟨c8_reconnect_counter.1 "W" [(0, Event.connect), (30001, Event.connTimeout),
                  (31001, Event.connectFailed), (32001, Event.connectFailed),
                  (33001, Event.connectFailed)],
   c8_reconnect_counter.2.1 100 (discSlot 1) Event.connectFailed (by decide) (by decide),
   c8_reconnect_counter.2.2.1 50 (discSlot 2) Event.connect c8S2 (by rfl) (by decide),
   c8_reconnect_counter.2.2.2 50 (discSlot 2) c8S2 (by rfl)⟩
